import Mathlib

/-!
Shallow embedding of the DocuQuiz MCQ generation pipeline
(`src/mcq_models.py`, `src/agents/mcq_agents.py`,
`src/agents/mcq_orchestrator.py`) and proofs about it.

Python floats are modelled as rationals (all score constants and
thresholds in the source, 5.0 / 6.0 / 7.0, are exactly representable);
Python lists as Lean lists; Python dict lookups with possibly missing
keys as `Option` fields; exceptions as `Option`-valued computations
(`none` = an exception was raised inside the enclosing `try`); the
outcome of an external LLM service call plus JSON parse as an explicit
outcome value fed to the stage function.
-/

namespace DocuQuiz

/-- `DifficultyLevel` enum from `mcq_models.py`. -/
inductive DifficultyLevel where
  | easy
  | medium
  | hard
deriving DecidableEq, Repr

/-- `ValidationStatus` enum from `mcq_models.py`. -/
inductive ValidationStatus where
  | valid
  | invalid
  | needs_revision
deriving DecidableEq, Repr

/-- `MCQOption` dataclass from `mcq_models.py`. -/
structure MCQOption where
  label : String
  text : String
  is_correct : Bool := false
deriving DecidableEq, Repr

/-- `MCQ` dataclass from `mcq_models.py` (the free-form `metadata`
dict, untouched by every claim, is omitted). -/
structure MCQ where
  question : String
  options : List MCQOption
  correct_answer : String
  explanation : String
  difficulty : DifficultyLevel
  chunk_id : String
  source_filename : String
  context_snippet : String := ""
deriving DecidableEq, Repr

/-- `CritiqueResult` dataclass from `mcq_models.py`.  The stored
`overall_score` field is recomputed from the three sub-scores by
`__post_init__` at every construction site and never mutated, so it is
modelled as the derived function `CritiqueResult.overall_score`. -/
structure CritiqueResult where
  mcq_index : Nat
  clarity_score : ℚ
  correctness_score : ℚ
  grounding_score : ℚ
  difficulty_assessment : DifficultyLevel
  issues : List String := []
  suggestions : List String := []
deriving DecidableEq, Repr

/-- `CritiqueResult.__post_init__`:
`overall_score = (clarity + correctness + grounding) / 3`. -/
def CritiqueResult.overall_score (c : CritiqueResult) : ℚ :=
  (c.clarity_score + c.correctness_score + c.grounding_score) / 3

/-- `ValidationResult` dataclass from `mcq_models.py`. -/
structure ValidationResult where
  mcq_index : Nat
  status : ValidationStatus
  is_context_grounded : Bool
  is_properly_formatted : Bool
  has_required_metadata : Bool
  has_hallucination : Bool
  validation_errors : List String := []
deriving DecidableEq, Repr

/-- `ValidationResult.is_valid` from `mcq_models.py`. -/
def ValidationResult.is_valid (v : ValidationResult) : Bool :=
  decide (v.status = ValidationStatus.valid) &&
  v.is_context_grounded &&
  v.is_properly_formatted &&
  v.has_required_metadata &&
  !v.has_hallucination

/-- `MCQGenerationResult` dataclass from `mcq_models.py`. -/
structure MCQGenerationResult where
  query : String
  mcqs : List MCQ
  critiques : List CritiqueResult
  validations : List ValidationResult
  valid_mcqs : List MCQ
  invalid_mcqs : List MCQ
deriving Repr

/-- The loop body of `MCQGenerationResult.__post_init__`: walk the
enumerated MCQ list in order, appending each MCQ to `valid_mcqs` when
`validations[i]` exists and `is_valid()`, else to `invalid_mcqs`.
(The Python loop appends at the tail going forward; the equivalent
cons-based recursion below produces the same two lists in the same
order.) -/
def partitionByValidation (validations : List ValidationResult) :
    List (Nat × MCQ) → List MCQ × List MCQ
  | [] => ([], [])
  | (i, mcq) :: rest =>
      let (vs, is) := partitionByValidation validations rest
      match validations[i]? with
      | some v => if v.is_valid then (mcq :: vs, is) else (vs, mcq :: is)
      | none => (vs, mcq :: is)

/-- Construction of an `MCQGenerationResult`, including the
`__post_init__` partition into `valid_mcqs` / `invalid_mcqs`. -/
def mkMCQGenerationResult (query : String) (mcqs : List MCQ)
    (critiques : List CritiqueResult) (validations : List ValidationResult) :
    MCQGenerationResult :=
  let p := partitionByValidation validations mcqs.enum
  { query := query, mcqs := mcqs, critiques := critiques,
    validations := validations, valid_mcqs := p.1, invalid_mcqs := p.2 }

/-- Whether `validations[i]` exists and reports valid — the condition
`__post_init__` uses to place `mcqs[i]` into `valid_mcqs`. -/
def validAt (validations : List ValidationResult) (i : Nat) : Bool :=
  match validations[i]? with
  | some v => v.is_valid
  | none => false

/-- A retrieved context fragment as handed to the agents: the dicts
built by `MCQRetrievalAgent.retrieve_context` (keys `text`, `chunk_id`,
`source`, ...).  `chunk_id` and `source` are `Option` because the
agents read them with `dict.get`, which yields `None`/a default when
the key is absent. -/
structure ChunkData where
  text : String
  chunk_id : Option String := none
  source : Option String := none
deriving DecidableEq, Repr

/-- Python `str.strip()`: remove whitespace from both ends.  Modelled
over the character list (structural recursion, so concrete instances
evaluate inside the kernel; `String.trim` agrees but is defined through
`Substring` well-founded recursion and does not reduce). -/
def pyStrip (s : String) : String :=
  ⟨((s.data.dropWhile Char.isWhitespace).reverse.dropWhile Char.isWhitespace).reverse⟩

/-- Python list indexing `l[i]` with a possibly negative index:
negative indices count from the end; an index out of range on either
side raises `IndexError`, modelled as `none`. -/
def pyIndex {α : Type} (l : List α) (i : Int) : Option α :=
  if 0 ≤ i then l[i.toNat]?
  else if 0 ≤ i + l.length then l[(i + l.length).toNat]?
  else none

/-- `DifficultyLevel(value)` in Python: the enum constructor raises
`ValueError` (modelled as `none`) on an unknown value string. -/
def parseDifficulty : String → Option DifficultyLevel
  | "easy" => some DifficultyLevel.easy
  | "medium" => some DifficultyLevel.medium
  | "hard" => some DifficultyLevel.hard
  | _ => none

/-- One parsed option object from the generation response; fields are
`Option` because the JSON may omit them (`opt["label"]` on a missing
key raises, modelled as `none` downstream). -/
structure OptionItem where
  label : Option String := none
  text : Option String := none
deriving DecidableEq, Repr

/-- One parsed item of the generation response array
(`mcq_data` in `MCQGenerationAgent.generate_mcqs`). -/
structure MCQItem where
  question : Option String := none
  options : Option (List OptionItem) := none
  correct_answer : Option String := none
  explanation : Option String := none
  difficulty : Option String := none
  chunk_index : Option Int := none
deriving DecidableEq, Repr

/-- Combined outcome of the generation service call and the JSON parse
of its response: the service raised, the response failed to parse, or
it parsed into an array of items. -/
inductive GenOutcome where
  | serviceError
  | parseError
  | parsed (items : List MCQItem)
deriving Repr

namespace MCQGenerationAgent

/-- Lines 166-168 of `mcq_agents.py`:
`chunk_idx = mcq_data.get('chunk_index', 0)` and
`source_chunk = context_chunks[chunk_idx] if chunk_idx < len(context_chunks) else context_chunks[0]`.
`none` means the Python subscript raised `IndexError`. -/
def resolveChunk (context_chunks : List ChunkData) (ci : Option Int) : Option ChunkData :=
  if ci.getD 0 < (context_chunks.length : Int) then pyIndex context_chunks (ci.getD 0)
  else context_chunks.head?

/-- `source_chunk['text'][:200] + "..."`. -/
def takeSnippet (s : String) : String :=
  String.mk (s.data.take 200) ++ "..."

/-- One element of the options comprehension:
`MCQOption(label=opt["label"], text=opt["text"], is_correct=(opt["label"] == mcq_data["correct_answer"]))`;
a missing key raises (`none`). -/
def buildOption (correct : String) (o : OptionItem) : Option MCQOption :=
  match o.label, o.text with
  | some label, some text =>
      some { label := label, text := text, is_correct := decide (label = correct) }
  | _, _ => none

/-- The whole options comprehension; a failure on any element fails
the comprehension (the exception propagates). -/
def buildOptions (correct : String) : List OptionItem → Option (List MCQOption)
  | [] => some []
  | o :: rest =>
      match buildOption correct o, buildOptions correct rest with
      | some m, some ms => some (m :: ms)
      | _, _ => none

/-- The body of the per-item loop in `MCQGenerationAgent.generate_mcqs`
(lines 166-190): resolve the source chunk, build the four options, and
assemble the MCQ; `none` when any step raised. -/
def buildMCQ (context_chunks : List ChunkData) (i : Nat) (item : MCQItem) : Option MCQ :=
  match resolveChunk context_chunks item.chunk_index with
  | none => none
  | some source_chunk =>
      match item.question, item.options, item.correct_answer, item.explanation with
      | some question, some optItems, some correct_answer, some explanation =>
          match buildOptions correct_answer optItems,
                parseDifficulty (item.difficulty.getD ("medium")) with
          | some options, some diff =>
              some { question := question, options := options,
                     correct_answer := correct_answer, explanation := explanation,
                     difficulty := diff,
                     chunk_id := source_chunk.chunk_id.getD (toString i),
                     source_filename := source_chunk.source.getD ("unknown"),
                     context_snippet := takeSnippet source_chunk.text }
          | _, _ => none
      | _, _, _, _ => none

/-- The whole item loop: the loop runs inside the surrounding `try`, so
an exception at any item discards every MCQ built so far (`none`). -/
def buildAllFrom (context_chunks : List ChunkData) :
    Nat → List MCQItem → Option (List MCQ)
  | _, [] => some []
  | i, item :: rest =>
      match buildMCQ context_chunks i item, buildAllFrom context_chunks (i + 1) rest with
      | some m, some ms => some (m :: ms)
      | _, _ => none

/-- `MCQGenerationAgent.generate_mcqs`: empty input short-circuits;
the whole service call / parse / item loop runs inside one `try` whose
`except` returns `[]`. -/
def generate_mcqs (context_chunks : List ChunkData) (outcome : GenOutcome) : List MCQ :=
  if context_chunks.isEmpty then []
  else
    match outcome with
    | GenOutcome.serviceError => []
    | GenOutcome.parseError => []
    | GenOutcome.parsed items =>
        match buildAllFrom context_chunks 0 items with
        | some mcqs => mcqs
        | none => []

end MCQGenerationAgent

/-- One parsed critique response object (`critique_data` in
`MCQCriticAgent.critique_mcqs`); every field may be missing. -/
structure CritiqueData where
  clarity_score : Option ℚ := none
  correctness_score : Option ℚ := none
  grounding_score : Option ℚ := none
  difficulty_assessment : Option String := none
  issues : Option (List String) := none
  suggestions : Option (List String) := none
deriving Repr

/-- Outcome of the critique service call plus JSON parse for one MCQ:
`err` covers a service error or an unparsable response. -/
inductive CritiqueOutcome where
  | err
  | parsed (data : CritiqueData)

namespace MCQCriticAgent

/-- `str(chunk.get('chunk_id'))` — Python renders a missing key
(`None`) as the string `"None"`. -/
def chunkIdStr (c : ChunkData) : String :=
  match c.chunk_id with
  | some s => s
  | none => "None"

/-- Lines 242-246 of `mcq_agents.py`: first chunk whose stringified
`chunk_id` equals the MCQ's `chunk_id`, defaulting to
`context_chunks[0] if context_chunks else None`. -/
def findSourceChunk (context_chunks : List ChunkData) (mcq : MCQ) : Option ChunkData :=
  match context_chunks.find? (fun c => decide (chunkIdStr c = mcq.chunk_id)) with
  | some c => some c
  | none => context_chunks.head?

/-- The basic critique emitted when no source chunk exists
(lines 250-258). -/
def basicCritique (i : Nat) (mcq : MCQ) : CritiqueResult :=
  { mcq_index := i, clarity_score := 5, correctness_score := 5, grounding_score := 0,
    difficulty_assessment := mcq.difficulty,
    issues := ["Could not find source context for verification"],
    suggestions := ["Verify MCQ against original source"] }

/-- The neutral fallback critique substituted when the per-MCQ `try`
block fails (lines 331-339). -/
def fallbackCritique (i : Nat) (mcq : MCQ) : CritiqueResult :=
  { mcq_index := i, clarity_score := 7, correctness_score := 7, grounding_score := 7,
    difficulty_assessment := mcq.difficulty,
    issues := ["Could not complete full critique"],
    suggestions := ["Manual review recommended"] }

/-- `CritiqueResult(... critique_data.get(..., default) ...)`
(lines 315-325): missing scores default to `5.0`, missing difficulty
to `"medium"`; an unknown difficulty string raises `ValueError`
(`none`), which the surrounding `try` turns into the fallback. -/
def buildCritique (i : Nat) (d : CritiqueData) : Option CritiqueResult :=
  match parseDifficulty (d.difficulty_assessment.getD ("medium")) with
  | none => none
  | some diff =>
      some { mcq_index := i,
             clarity_score := d.clarity_score.getD 5,
             correctness_score := d.correctness_score.getD 5,
             grounding_score := d.grounding_score.getD 5,
             difficulty_assessment := diff,
             issues := d.issues.getD [],
             suggestions := d.suggestions.getD [] }

/-- The per-MCQ body of `MCQCriticAgent.critique_mcqs`: no source
chunk → basic critique (service call skipped); otherwise the service
call + parse + construction run in a `try` whose `except` appends the
neutral fallback critique. -/
def critique_one (context_chunks : List ChunkData) (outcome : Nat → CritiqueOutcome)
    (i : Nat) (mcq : MCQ) : CritiqueResult :=
  match findSourceChunk context_chunks mcq with
  | none => basicCritique i mcq
  | some _ =>
      match outcome i with
      | CritiqueOutcome.err => fallbackCritique i mcq
      | CritiqueOutcome.parsed d =>
          match buildCritique i d with
          | some c => c
          | none => fallbackCritique i mcq

/-- `MCQCriticAgent.critique_mcqs`: one critique per MCQ, in input
order.  `outcome i` is the service-and-parse outcome for the `i`-th
MCQ's critique request. -/
def critique_mcqs (mcqs : List MCQ) (context_chunks : List ChunkData)
    (outcome : Nat → CritiqueOutcome) : List CritiqueResult :=
  mcqs.enum.map fun p => critique_one context_chunks outcome p.1 p.2

end MCQCriticAgent

namespace MCQValidationAgent

/-- `MCQValidationAgent._check_format`.  The Python body starts with
`is_valid = True`, runs five independent checks in order, each failing
check appending one error and clearing `is_valid`; so the returned flag
is the conjunction of the five negated failure conditions and the
error list gains the failed checks' messages in check order. -/
def check_format (mcq : MCQ) (errors : List String) : Bool × List String :=
  -- `not mcq.question or len(mcq.question.strip()) < 10`
  let c1 : Bool := decide (mcq.question = "") || decide ((pyStrip mcq.question).length < 10)
  -- `len(mcq.options) != 4`
  let c2 : Bool := decide (mcq.options.length ≠ 4)
  -- `len([opt for opt in mcq.options if opt.is_correct]) != 1`
  let c3 : Bool := decide ((mcq.options.filter fun o => o.is_correct).length ≠ 1)
  -- `not mcq.explanation or len(mcq.explanation.strip()) < 10`
  let c4 : Bool := decide (mcq.explanation = "") || decide ((pyStrip mcq.explanation).length < 10)
  -- `{opt.label for opt in mcq.options} != {'A','B','C','D'}`
  let c5 : Bool :=
    decide ((mcq.options.map fun o => o.label).toFinset ≠ ({"A", "B", "C", "D"} : Finset String))
  let errors := if c1 then errors ++ ["Question is too short or empty"] else errors
  let errors := if c2 then
      errors ++ ["Must have exactly 4 options, found " ++ toString mcq.options.length]
    else errors
  let errors := if c3 then
      errors ++ ["Must have exactly 1 correct answer, found " ++
        toString (mcq.options.filter fun o => o.is_correct).length]
    else errors
  let errors := if c4 then errors ++ ["Explanation is too short or empty"] else errors
  let errors := if c5 then
      errors ++ ["Invalid option labels: " ++
        toString ((mcq.options.map fun o => o.label).dedup)]
    else errors
  (!c1 && !c2 && !c3 && !c4 && !c5, errors)

/-- `MCQValidationAgent._check_metadata`.  The third Python check,
`if not mcq.difficulty`, can never fire: `DifficultyLevel` enum members
are always truthy, so only `chunk_id` and `source_filename` matter. -/
def check_metadata (mcq : MCQ) (errors : List String) : Bool × List String :=
  let c6 : Bool := decide (mcq.chunk_id = "")
  let c7 : Bool := decide (mcq.source_filename = "")
  let errors := if c6 then errors ++ ["Missing chunk_id"] else errors
  let errors := if c7 then errors ++ ["Missing source_filename"] else errors
  (!c6 && !c7, errors)

/-- Lines 406-412 of `mcq_agents.py`: the overall status decision —
`VALID` when no errors accumulated, else `NEEDS_REVISION` when a
critique exists with `overall_score >= 7.0`, else `INVALID`. -/
def decideStatus (errors : List String) (critique : Option CritiqueResult) :
    ValidationStatus :=
  if errors = [] then ValidationStatus.valid
  else
    match critique with
    | some c =>
        if 7 ≤ c.overall_score then ValidationStatus.needs_revision
        else ValidationStatus.invalid
    | none => ValidationStatus.invalid

/-- One iteration of the loop in `MCQValidationAgent.validate_mcqs`:
format check, metadata check, grounding / hallucination thresholds read
from the positional critique, then the status decision. -/
def validate_one (i : Nat) (mcq : MCQ) (critique : Option CritiqueResult) :
    ValidationResult :=
  let fm := check_format mcq []
  let md := check_metadata mcq fm.2
  let g : Bool × List String :=
    match critique with
    | some c =>
        if c.grounding_score < 6 then
          (false, md.2 ++ ["Low grounding score: " ++ toString c.grounding_score ++ "/10"])
        else (true, md.2)
    | none => (true, md.2)
  let h : Bool × List String :=
    match critique with
    | some c =>
        if c.grounding_score < 5 then
          (true, g.2 ++ ["Potential hallucination detected"])
        else (false, g.2)
    | none => (false, g.2)
  let errors := h.2
  let status := decideStatus errors critique
  { mcq_index := i, status := status, is_context_grounded := g.1,
    is_properly_formatted := fm.1, has_required_metadata := md.1,
    has_hallucination := h.1, validation_errors := errors }

/-- `MCQValidationAgent.validate_mcqs`: one `ValidationResult` per MCQ,
in order; `critiques[i] if i < len(critiques) else None` is
`critiques[i]?`.  The `context_chunks` argument is accepted but unused,
as in the source. -/
def validate_mcqs (mcqs : List MCQ) (critiques : List CritiqueResult)
    (_context_chunks : List ChunkData) : List ValidationResult :=
  mcqs.enum.map fun p => validate_one p.1 p.2 critiques[p.1]?

end MCQValidationAgent

namespace MCQOrchestrator

/-- `MCQOrchestrator.generate_mcqs`: retrieval already happened (its
chunks are the input); empty retrieval and empty generation both
short-circuit to an empty result; otherwise critique then validation
then the aggregate result. -/
def generate_mcqs (query : String) (context_chunks : List ChunkData)
    (genOutcome : GenOutcome) (criticOutcome : Nat → CritiqueOutcome) :
    MCQGenerationResult :=
  if context_chunks.isEmpty then mkMCQGenerationResult query [] [] []
  else
    let mcqs := MCQGenerationAgent.generate_mcqs context_chunks genOutcome
    if mcqs.isEmpty then mkMCQGenerationResult query [] [] []
    else
      let critiques := MCQCriticAgent.critique_mcqs mcqs context_chunks criticOutcome
      let validations := MCQValidationAgent.validate_mcqs mcqs critiques context_chunks
      mkMCQGenerationResult query mcqs critiques validations

/-- The external inputs of one batched query: its retrieved chunks and
the service outcomes of its generation and critique calls. -/
structure QueryRun where
  query : String
  chunks : List ChunkData
  genOutcome : GenOutcome
  criticOutcome : Nat → CritiqueOutcome

/-- One iteration of the loop in `MCQOrchestrator.generate_mcqs_batch`. -/
def runQuery (qr : QueryRun) : MCQGenerationResult :=
  generate_mcqs qr.query qr.chunks qr.genOutcome qr.criticOutcome

/-- The batch summary computation (line 216 of `mcq_orchestrator.py`):
`total_valid / total_generated * 100`.  Python division raises
`ZeroDivisionError` when the denominator is `0`; that is modelled as
`none`. -/
def batchSuccessRate (results : List MCQGenerationResult) : Option ℚ :=
  let total_valid : ℕ := (results.map fun r => r.valid_mcqs.length).sum
  let total_generated : ℕ := (results.map fun r => r.mcqs.length).sum
  if total_generated = 0 then none
  else some ((total_valid : ℚ) / (total_generated : ℚ) * 100)

/-- `MCQOrchestrator.generate_mcqs_batch`: run every query in order,
then report the batch summary success rate. -/
def generate_mcqs_batch (runs : List QueryRun) :
    List MCQGenerationResult × Option ℚ :=
  let results := runs.map runQuery
  (results, batchSuccessRate results)

end MCQOrchestrator

/-! Concrete fixtures used by witnesses and counterexamples. -/

/-- A well-formed option list: labels exactly A-D, exactly one correct. -/
def optionsW : List MCQOption :=
  [{ label := "A", text := "Paris", is_correct := true },
   { label := "B", text := "Lyon" },
   { label := "C", text := "Nice" },
   { label := "D", text := "Lille" }]

/-- A structurally conforming MCQ. -/
def mcqW : MCQ :=
  { question := "What is the capital of France?",
    options := optionsW,
    correct_answer := "A",
    explanation := "The context names Paris as the capital.",
    difficulty := DifficultyLevel.medium,
    chunk_id := "c0",
    source_filename := "doc.txt" }

/-- A context fragment whose `chunk_id` matches `mcqW`. -/
def chunkW : ChunkData :=
  { text := "Paris is the capital of France.", chunk_id := some ("c0"),
    source := some ("doc.txt") }

/-- A critique whose grounding score 5 lies between the two
thresholds (below 6, not below 5). -/
def critiqueMid : CritiqueResult :=
  { mcq_index := 0, clarity_score := 8, correctness_score := 8,
    grounding_score := 5, difficulty_assessment := DifficultyLevel.medium }

/-- A critique with grounding score 4 (below both thresholds). -/
def critique40 : CritiqueResult :=
  { mcq_index := 0, clarity_score := 9, correctness_score := 9,
    grounding_score := 4, difficulty_assessment := DifficultyLevel.medium }

/-- A critique with every sub-score 7, hence overall score 7. -/
def critique777 : CritiqueResult :=
  { mcq_index := 0, clarity_score := 7, correctness_score := 7,
    grounding_score := 7, difficulty_assessment := DifficultyLevel.medium }

/-- `mcqW` with an under-length question: exactly one format error. -/
def mcqShortQ : MCQ :=
  { mcqW with question := "Too short" }

/-- First of two context fragments. -/
def chunkC0 : ChunkData :=
  { text := "first fragment text", chunk_id := some ("c0"), source := some ("a.txt") }

/-- Second of two context fragments. -/
def chunkC1 : ChunkData :=
  { text := "second fragment text", chunk_id := some ("c1"), source := some ("b.txt") }

/-- A fully populated parsed generation item. -/
def itemBase : MCQItem :=
  { question := some ("Which fragment does this question cite?"),
    options := some
      [{ label := some ("A"), text := some ("one") },
       { label := some ("B"), text := some ("two") },
       { label := some ("C"), text := some ("three") },
       { label := some ("D"), text := some ("four") }],
    correct_answer := some ("A"),
    explanation := some ("Stated in the cited fragment."),
    difficulty := some ("easy"),
    chunk_index := some 0 }

/-- `itemBase` with the negative fragment reference `-1`. -/
def itemNeg : MCQItem :=
  { itemBase with chunk_index := some (-1) }

/-- `itemBase` with a fragment reference past the end of the list. -/
def itemOver : MCQItem :=
  { itemBase with chunk_index := some 7 }

/-- An MCQ whose `correct_answer` label (B) differs from the label of
its uniquely flagged option (A), otherwise fully conforming. -/
def mcqMismatch : MCQ :=
  { mcqW with correct_answer := "B" }

/-- A critique whose scores raise no validation error. -/
def critiqueGood : CritiqueResult :=
  { mcq_index := 0, clarity_score := 9, correctness_score := 9,
    grounding_score := 9, difficulty_assessment := DifficultyLevel.medium }

/-- A critique outcome that parses with every field missing. -/
def critOutEmpty : Nat → CritiqueOutcome :=
  fun _ => CritiqueOutcome.parsed {}

/-! Theorems. -/

lemma partitionByValidation_length (validations : List ValidationResult)
    (l : List (Nat × MCQ)) :
    (partitionByValidation validations l).1.length +
      (partitionByValidation validations l).2.length = l.length := by
  induction l with
  | nil => simp [partitionByValidation]
  | cons hd tl ih =>
      obtain ⟨i, mcq⟩ := hd
      simp only [partitionByValidation]
      cases h : validations[i]? with
      | none => simp [h]; omega
      | some v =>
          by_cases hv : v.is_valid <;> simp [h, hv] <;> omega

lemma partitionByValidation_fst (validations : List ValidationResult)
    (l : List (Nat × MCQ)) :
    (partitionByValidation validations l).1 =
      (l.filter fun p => validAt validations p.1).map Prod.snd := by
  induction l with
  | nil => simp [partitionByValidation]
  | cons hd tl ih =>
      obtain ⟨i, mcq⟩ := hd
      simp only [partitionByValidation, List.filter_cons]
      cases h : validations[i]? with
      | none => simp [validAt, h, ih]
      | some v =>
          by_cases hv : v.is_valid <;> simp [validAt, h, hv, ih]

lemma partitionByValidation_snd (validations : List ValidationResult)
    (l : List (Nat × MCQ)) :
    (partitionByValidation validations l).2 =
      (l.filter fun p => !validAt validations p.1).map Prod.snd := by
  induction l with
  | nil => simp [partitionByValidation]
  | cons hd tl ih =>
      obtain ⟨i, mcq⟩ := hd
      simp only [partitionByValidation, List.filter_cons]
      cases h : validations[i]? with
      | none => simp [validAt, h, ih]
      | some v =>
          by_cases hv : v.is_valid <;> simp [validAt, h, hv, ih]

/-- C2: for every constructed `MCQGenerationResult`,
`len(valid_mcqs) + len(invalid_mcqs) = len(mcqs)`; the partition puts
`mcqs[i]` into `valid_mcqs` exactly when `validations[i]` exists and
`is_valid()` holds, and into `invalid_mcqs` otherwise (in particular an
MCQ whose index has no validation record goes to `invalid_mcqs`). -/
theorem result_partition_invariant (query : String) (mcqs : List MCQ)
    (critiques : List CritiqueResult) (validations : List ValidationResult) :
    let r := mkMCQGenerationResult query mcqs critiques validations
    r.valid_mcqs.length + r.invalid_mcqs.length = r.mcqs.length ∧
    r.valid_mcqs = (mcqs.enum.filter fun p => validAt validations p.1).map Prod.snd ∧
    r.invalid_mcqs = (mcqs.enum.filter fun p => !validAt validations p.1).map Prod.snd := by
  refine ⟨?_, ?_, ?_⟩
  · have h := partitionByValidation_length validations mcqs.enum
    simpa [mkMCQGenerationResult] using h
  · simpa [mkMCQGenerationResult] using
      partitionByValidation_fst validations mcqs.enum
  · simpa [mkMCQGenerationResult] using
      partitionByValidation_snd validations mcqs.enum

lemma pyStrip_empty : pyStrip "" = "" := rfl

/-- The source guard `not s or len(s.strip()) < 10` evaluates to
`false` exactly on strings of trimmed length at least 10. -/
lemma strip_guard_false (s : String) (h : 10 ≤ (pyStrip s).length) :
    (decide (s = "") || decide ((pyStrip s).length < 10)) = false := by
  have hs : s ≠ "" := by
    intro hs
    rw [hs, pyStrip_empty] at h
    simp [String.length] at h
  simp [hs]
  omega

lemma strip_guard_true (s : String) (h : ¬ 10 ≤ (pyStrip s).length) :
    (decide (s = "") || decide ((pyStrip s).length < 10)) = true := by
  simp
  omega

/-- C3: `is_properly_formatted` (the flag returned by `_check_format`)
is true iff all five structural conditions hold — trimmed question
length ≥ 10, exactly 4 options, exactly 1 option flagged correct,
trimmed explanation length ≥ 10, label set exactly {A,B,C,D} — and each
failed condition appends exactly one validation error. -/
theorem check_format_characterisation (mcq : MCQ) (errors : List String) :
    ((MCQValidationAgent.check_format mcq errors).1 = true ↔
      (10 ≤ (pyStrip mcq.question).length ∧
       mcq.options.length = 4 ∧
       (mcq.options.filter fun o => o.is_correct).length = 1 ∧
       10 ≤ (pyStrip mcq.explanation).length ∧
       (mcq.options.map fun o => o.label).toFinset = ({"A", "B", "C", "D"} : Finset String))) ∧
    (MCQValidationAgent.check_format mcq errors).2.length = errors.length +
      ((if 10 ≤ (pyStrip mcq.question).length then 0 else 1) +
       (if mcq.options.length = 4 then 0 else 1) +
       (if (mcq.options.filter fun o => o.is_correct).length = 1 then 0 else 1) +
       (if 10 ≤ (pyStrip mcq.explanation).length then 0 else 1) +
       (if (mcq.options.map fun o => o.label).toFinset = ({"A", "B", "C", "D"} : Finset String)
        then 0 else 1)) := by
  by_cases h1 : 10 ≤ (pyStrip mcq.question).length <;>
    by_cases h2 : mcq.options.length = 4 <;>
    by_cases h3 : (mcq.options.filter fun o => o.is_correct).length = 1 <;>
    by_cases h4 : 10 ≤ (pyStrip mcq.explanation).length <;>
    by_cases h5 : (mcq.options.map fun o => o.label).toFinset =
        ({"A", "B", "C", "D"} : Finset String) <;>
    simp_all [MCQValidationAgent.check_format, strip_guard_false, strip_guard_true,
      List.length_append] <;> (try split_ifs) <;> omega

lemma validate_mcqs_getElem (mcqs : List MCQ) (critiques : List CritiqueResult)
    (chunks : List ChunkData) (i : Nat) (mcq : MCQ) (h : mcqs[i]? = some mcq) :
    (MCQValidationAgent.validate_mcqs mcqs critiques chunks)[i]? =
      some (MCQValidationAgent.validate_one i mcq critiques[i]?) := by
  simp [MCQValidationAgent.validate_mcqs, List.getElem?_map, List.getElem?_enum, h]

/-- C4: in the Validation Stage, with a critique at the MCQ's index,
`is_context_grounded` is cleared exactly when `grounding_score < 6.0`
(recording an error carrying the numeric score) and `has_hallucination`
is set exactly when `grounding_score < 5.0` (recording an error); with
no critique at that index both flags keep their defaults. -/
theorem validation_grounding_thresholds (mcqs : List MCQ)
    (critiques : List CritiqueResult) (chunks : List ChunkData)
    (i : Nat) (mcq : MCQ) (h : mcqs[i]? = some mcq) :
    ∃ v, (MCQValidationAgent.validate_mcqs mcqs critiques chunks)[i]? = some v ∧
      (∀ c, critiques[i]? = some c →
        ((v.is_context_grounded = false ↔ c.grounding_score < 6) ∧
         (v.has_hallucination = true ↔ c.grounding_score < 5) ∧
         (c.grounding_score < 6 →
           ("Low grounding score: " ++ toString c.grounding_score ++ "/10")
             ∈ v.validation_errors) ∧
         (c.grounding_score < 5 →
           ("Potential hallucination detected") ∈ v.validation_errors))) ∧
      (critiques[i]? = none →
        v.is_context_grounded = true ∧ v.has_hallucination = false) := by
  refine ⟨_, validate_mcqs_getElem mcqs critiques chunks i mcq h, ?_, ?_⟩
  · intro c hc
    by_cases h6 : c.grounding_score < 6
    · by_cases h5 : c.grounding_score < 5 <;>
        simp [MCQValidationAgent.validate_one, hc, h6, h5]
    · have h5 : ¬ c.grounding_score < 5 := fun hh => h6 (hh.trans (by norm_num))
      simp [MCQValidationAgent.validate_one, hc, h6, h5]
  · intro hc
    simp [MCQValidationAgent.validate_one, hc]

/-- C4 witness: a critique with grounding score 5 (below 6, not below
5) yields `is_context_grounded = false` and `has_hallucination = false`. -/
theorem validation_grounding_thresholds_witness :
    ([mcqW])[0]? = some mcqW ∧
    ((MCQValidationAgent.validate_mcqs [mcqW] [critiqueMid] [chunkW])[0]?.map
      fun v => (v.is_context_grounded, v.has_hallucination)) = some (false, false) := by
  refine ⟨rfl, ?_⟩
  obtain ⟨v, hv, hsome, -⟩ :=
    validation_grounding_thresholds [mcqW] [critiqueMid] [chunkW] 0 mcqW rfl
  obtain ⟨hg, hh, -, -⟩ := hsome critiqueMid rfl
  rw [hv]
  have h1 : v.is_context_grounded = false := hg.mpr (by norm_num [critiqueMid])
  have hno : ¬ critiqueMid.grounding_score < 5 := by norm_num [critiqueMid]
  have h2 : v.has_hallucination = false := by
    have := mt hh.mp hno
    simpa using this
  simp [h1, h2]

lemma decideStatus_valid_iff (E : List String) (critique : Option CritiqueResult) :
    MCQValidationAgent.decideStatus E critique = ValidationStatus.valid ↔ E = [] := by
  cases critique with
  | none =>
      by_cases hE : E = [] <;> simp [MCQValidationAgent.decideStatus, hE]
  | some c =>
      by_cases hE : E = [] <;>
        by_cases h7 : 7 ≤ c.overall_score <;>
        simp [MCQValidationAgent.decideStatus, hE, h7]

lemma decideStatus_nr_iff (E : List String) (critique : Option CritiqueResult) :
    MCQValidationAgent.decideStatus E critique = ValidationStatus.needs_revision ↔
      (E ≠ [] ∧ ∃ c, critique = some c ∧ 7 ≤ c.overall_score) := by
  cases critique with
  | none =>
      by_cases hE : E = [] <;> simp [MCQValidationAgent.decideStatus, hE]
  | some c =>
      by_cases hE : E = [] <;>
        by_cases h7 : 7 ≤ c.overall_score <;>
        simp [MCQValidationAgent.decideStatus, hE, h7]

lemma decideStatus_invalid_iff (E : List String) (critique : Option CritiqueResult) :
    MCQValidationAgent.decideStatus E critique = ValidationStatus.invalid ↔
      (E ≠ [] ∧ ∀ c, critique = some c → c.overall_score < 7) := by
  unfold MCQValidationAgent.decideStatus
  constructor
  · intro h
    by_cases hE : E = []
    · rw [if_pos hE] at h
      exact absurd h (by simp)
    · rw [if_neg hE] at h
      refine ⟨hE, ?_⟩
      intro c hc
      rw [hc] at h
      change (if 7 ≤ c.overall_score then ValidationStatus.needs_revision
        else ValidationStatus.invalid) = ValidationStatus.invalid at h
      by_cases h7 : 7 ≤ c.overall_score
      · rw [if_pos h7] at h
        exact absurd h (by simp)
      · exact not_le.mp h7
  · rintro ⟨hE, hall⟩
    rw [if_neg hE]
    cases critique with
    | none => rfl
    | some c =>
        show (if 7 ≤ c.overall_score then ValidationStatus.needs_revision
          else ValidationStatus.invalid) = ValidationStatus.invalid
        rw [if_neg (not_le.mpr (hall c rfl))]

lemma validate_one_status_eq (i : Nat) (mcq : MCQ)
    (critique : Option CritiqueResult) :
    (MCQValidationAgent.validate_one i mcq critique).status =
      MCQValidationAgent.decideStatus
        (MCQValidationAgent.validate_one i mcq critique).validation_errors critique := rfl

/-- C5: in the Validation Stage the status is `VALID` iff no validation
error was accumulated; `NEEDS_REVISION` iff errors exist and the
positional critique exists with `overall_score ≥ 7.0`; `INVALID` in
every remaining case. -/
theorem validation_status_rule (mcqs : List MCQ) (critiques : List CritiqueResult)
    (chunks : List ChunkData) (i : Nat) (mcq : MCQ) (h : mcqs[i]? = some mcq) :
    ∃ v, (MCQValidationAgent.validate_mcqs mcqs critiques chunks)[i]? = some v ∧
      (v.status = ValidationStatus.valid ↔ v.validation_errors = []) ∧
      (v.status = ValidationStatus.needs_revision ↔
        (v.validation_errors ≠ [] ∧
         ∃ c, critiques[i]? = some c ∧ 7 ≤ c.overall_score)) ∧
      (v.status = ValidationStatus.invalid ↔
        (v.validation_errors ≠ [] ∧
         ∀ c, critiques[i]? = some c → c.overall_score < 7)) := by
  refine ⟨_, validate_mcqs_getElem mcqs critiques chunks i mcq h, ?_, ?_, ?_⟩
  · rw [validate_one_status_eq]
    exact decideStatus_valid_iff _ _
  · rw [validate_one_status_eq]
    exact decideStatus_nr_iff _ _
  · rw [validate_one_status_eq]
    exact decideStatus_invalid_iff _ _

/-- C5 witness: an MCQ with one format error and an all-7 critique
(overall score exactly 7) gets status `NEEDS_REVISION`. -/
theorem validation_status_rule_witness :
    ([mcqShortQ])[0]? = some mcqShortQ ∧
    ((MCQValidationAgent.validate_mcqs [mcqShortQ] [critique777] [chunkW])[0]?.map
      fun v => v.status) = some ValidationStatus.needs_revision := by
  refine ⟨rfl, ?_⟩
  obtain ⟨v, hv, -, hnr, -⟩ :=
    validation_status_rule [mcqShortQ] [critique777] [chunkW] 0 mcqShortQ rfl
  have ht : (MCQValidationAgent.validate_mcqs [mcqShortQ] [critique777] [chunkW])[0]? =
      some (MCQValidationAgent.validate_one 0 mcqShortQ (some critique777)) := rfl
  rw [ht] at hv
  obtain rfl : v = MCQValidationAgent.validate_one 0 mcqShortQ (some critique777) :=
    (Option.some.inj hv).symm
  have hs : (MCQValidationAgent.validate_one 0 mcqShortQ (some critique777)).status =
      ValidationStatus.needs_revision := by
    refine hnr.mpr ⟨?_, critique777, rfl, ?_⟩
    · decide
    · norm_num [CritiqueResult.overall_score, critique777]
  rw [ht, Option.map_some', hs]

/-- C1 (evaluating the defect): a batch whose single query retrieves no
context yields `total_generated = 0`, and the batch summary's
`total_valid / total_generated * 100` then raises `ZeroDivisionError`
(modelled as `none`) instead of reporting the success rate 0 that the
spec defines for this case. -/
theorem batch_rate_division_by_zero :
    (MCQOrchestrator.generate_mcqs_batch
      [{ query := "q1", chunks := [], genOutcome := GenOutcome.serviceError,
         criticOutcome := fun _ => CritiqueOutcome.err }]).2 = none := rfl

lemma buildAllFrom_none_of_item (chunks : List ChunkData) (n : Nat)
    (items : List MCQItem) (j : Nat) (item : MCQItem)
    (h1 : items[j]? = some item)
    (h2 : MCQGenerationAgent.buildMCQ chunks (n + j) item = none) :
    MCQGenerationAgent.buildAllFrom chunks n items = none := by
  induction items generalizing n j with
  | nil => simp at h1
  | cons hd tl ih =>
      cases j with
      | zero =>
          obtain rfl : hd = item := by simpa using h1
          simp only [MCQGenerationAgent.buildAllFrom]
          rw [show n + 0 = n by omega] at h2
          rw [h2]
      | succ j2 =>
          have h1t : tl[j2]? = some item := by simpa using h1
          have h2t : MCQGenerationAgent.buildMCQ chunks (n + 1 + j2) item = none := by
            rw [show n + 1 + j2 = n + (j2 + 1) by omega]
            exact h2
          have ht := ih (n + 1) j2 h1t h2t
          simp only [MCQGenerationAgent.buildAllFrom, ht]
          cases MCQGenerationAgent.buildMCQ chunks n hd <;> rfl

/-- C6: the Generation Stage never propagates a failure — a service
error, a parse error, or any malformed item makes the whole call
return `[]`; and when generation returns `[]` the Orchestrator returns
the empty result, independent of the critique outcomes (so the
Critique/Validation stages are not consulted). -/
theorem generation_fail_soft (query : String) (chunks : List ChunkData)
    (genOutcome : GenOutcome) (criticOutcome : Nat → CritiqueOutcome) :
    ((genOutcome = GenOutcome.serviceError ∨ genOutcome = GenOutcome.parseError ∨
      (∃ items, genOutcome = GenOutcome.parsed items ∧
        MCQGenerationAgent.buildAllFrom chunks 0 items = none)) →
      MCQGenerationAgent.generate_mcqs chunks genOutcome = []) ∧
    (∀ items j item, genOutcome = GenOutcome.parsed items → items[j]? = some item →
      MCQGenerationAgent.buildMCQ chunks j item = none →
      MCQGenerationAgent.generate_mcqs chunks genOutcome = []) ∧
    (MCQGenerationAgent.generate_mcqs chunks genOutcome = [] →
      (MCQOrchestrator.generate_mcqs query chunks genOutcome criticOutcome =
        mkMCQGenerationResult query [] [] [] ∧
       ∀ co2 : Nat → CritiqueOutcome,
         MCQOrchestrator.generate_mcqs query chunks genOutcome criticOutcome =
           MCQOrchestrator.generate_mcqs query chunks genOutcome co2)) := by
  refine ⟨?_, ?_, ?_⟩
  · rintro (rfl | rfl | ⟨items, rfl, hb⟩)
    · simp [MCQGenerationAgent.generate_mcqs]
    · simp [MCQGenerationAgent.generate_mcqs]
    · simp [MCQGenerationAgent.generate_mcqs, hb]
  · rintro items j item rfl h1 h2
    have hb : MCQGenerationAgent.buildAllFrom chunks 0 items = none :=
      buildAllFrom_none_of_item chunks 0 items j item h1 (by simpa using h2)
    simp [MCQGenerationAgent.generate_mcqs, hb]
  · intro hgen
    constructor
    · unfold MCQOrchestrator.generate_mcqs
      by_cases hc : chunks.isEmpty <;> simp [hc, hgen]
    · intro co2
      unfold MCQOrchestrator.generate_mcqs
      by_cases hc : chunks.isEmpty <;> simp [hc, hgen]

/-- C6 witness: an unparsable generation response over a non-empty
fragment list gives an empty generation result and an empty
orchestrator result. -/
theorem generation_fail_soft_witness :
    MCQGenerationAgent.generate_mcqs [chunkW] GenOutcome.parseError = [] ∧
    MCQOrchestrator.generate_mcqs ("q") [chunkW] GenOutcome.parseError
        (fun _ => CritiqueOutcome.err) =
      mkMCQGenerationResult ("q") [] [] [] := by
  obtain ⟨herr, -, hshort⟩ := generation_fail_soft ("q") [chunkW] GenOutcome.parseError
    (fun _ => CritiqueOutcome.err)
  have hg := herr (Or.inr (Or.inl rfl))
  exact ⟨hg, (hshort hg).1⟩

lemma critique_mcqs_getElem (mcqs : List MCQ) (chunks : List ChunkData)
    (outcome : Nat → CritiqueOutcome) (i : Nat) (mcq : MCQ)
    (h : mcqs[i]? = some mcq) :
    (MCQCriticAgent.critique_mcqs mcqs chunks outcome)[i]? =
      some (MCQCriticAgent.critique_one chunks outcome i mcq) := by
  simp [MCQCriticAgent.critique_mcqs, List.getElem?_map, List.getElem?_enum, h]

lemma critique_one_mcq_index (chunks : List ChunkData)
    (outcome : Nat → CritiqueOutcome) (j : Nat) (m : MCQ) :
    (MCQCriticAgent.critique_one chunks outcome j m).mcq_index = j := by
  rcases hf : MCQCriticAgent.findSourceChunk chunks m with - | ch
  · simp [MCQCriticAgent.critique_one, hf, MCQCriticAgent.basicCritique]
  · rcases ho : outcome j with - | d
    · simp [MCQCriticAgent.critique_one, hf, ho, MCQCriticAgent.fallbackCritique]
    · rcases hb : MCQCriticAgent.buildCritique j d with - | c
      · simp [MCQCriticAgent.critique_one, hf, ho, hb, MCQCriticAgent.fallbackCritique]
      · have hcj : c.mcq_index = j := by
          unfold MCQCriticAgent.buildCritique at hb
          rcases hp : parseDifficulty (d.difficulty_assessment.getD ("medium")) with - | diff
          · rw [hp] at hb
            cases hb
          · rw [hp] at hb
            obtain rfl := Option.some.inj hb
            rfl
        simp [MCQCriticAgent.critique_one, hf, ho, hb, hcj]

/-- C7: a service error or parse failure while critiquing one MCQ does
not disturb the rest of the pass — the stage still returns one critique
per MCQ in order, and that MCQ receives the neutral fallback critique:
7.0 on all three axes (hence overall score 7.0), the MCQ's declared
difficulty, and a note that the critique could not be completed. -/
theorem critic_error_isolation (mcqs : List MCQ) (chunks : List ChunkData)
    (outcome : Nat → CritiqueOutcome) (i : Nat) (mcq : MCQ)
    (h : mcqs[i]? = some mcq)
    (hfound : MCQCriticAgent.findSourceChunk chunks mcq ≠ none)
    (herr : outcome i = CritiqueOutcome.err) :
    (MCQCriticAgent.critique_mcqs mcqs chunks outcome).length = mcqs.length ∧
    (MCQCriticAgent.critique_mcqs mcqs chunks outcome)[i]? =
      some (MCQCriticAgent.fallbackCritique i mcq) ∧
    (MCQCriticAgent.fallbackCritique i mcq).clarity_score = 7 ∧
    (MCQCriticAgent.fallbackCritique i mcq).correctness_score = 7 ∧
    (MCQCriticAgent.fallbackCritique i mcq).grounding_score = 7 ∧
    (MCQCriticAgent.fallbackCritique i mcq).overall_score = 7 ∧
    (MCQCriticAgent.fallbackCritique i mcq).difficulty_assessment = mcq.difficulty ∧
    ("Could not complete full critique") ∈ (MCQCriticAgent.fallbackCritique i mcq).issues ∧
    (∀ j mcqj, mcqs[j]? = some mcqj →
      ∃ c : CritiqueResult,
        (MCQCriticAgent.critique_mcqs mcqs chunks outcome)[j]? = some c ∧
        c.mcq_index = j) := by
  obtain ⟨ch, hch⟩ := Option.ne_none_iff_exists'.mp hfound
  refine ⟨?_, ?_, rfl, rfl, rfl, ?_, rfl, ?_, ?_⟩
  · simp [MCQCriticAgent.critique_mcqs]
  · rw [critique_mcqs_getElem mcqs chunks outcome i mcq h]
    simp [MCQCriticAgent.critique_one, hch, herr]
  · norm_num [MCQCriticAgent.fallbackCritique, CritiqueResult.overall_score]
  · simp [MCQCriticAgent.fallbackCritique]
  · intro j mcqj hj
    refine ⟨MCQCriticAgent.critique_one chunks outcome j mcqj, ?_, ?_⟩
    · exact critique_mcqs_getElem mcqs chunks outcome j mcqj hj
    · exact critique_one_mcq_index chunks outcome j mcqj

/-- C7 witness: with the single critique call failing, the critic still
returns one critique, the neutral fallback. -/
theorem critic_error_isolation_witness :
    (MCQCriticAgent.critique_mcqs [mcqW] [chunkW] (fun _ => CritiqueOutcome.err)).length
      = 1 ∧
    (MCQCriticAgent.critique_mcqs [mcqW] [chunkW] (fun _ => CritiqueOutcome.err))[0]? =
      some (MCQCriticAgent.fallbackCritique 0 mcqW) := by
  obtain ⟨hlen, hget, -⟩ := critic_error_isolation [mcqW] [chunkW]
    (fun _ => CritiqueOutcome.err) 0 mcqW rfl (by decide) rfl
  exact ⟨hlen, hget⟩

lemma buildMCQ_inversion (chunks : List ChunkData) (i : Nat) (item : MCQItem)
    (m : MCQ) (h : MCQGenerationAgent.buildMCQ chunks i item = some m) :
    ∃ source_chunk question opts ca ex options diff,
      MCQGenerationAgent.resolveChunk chunks item.chunk_index = some source_chunk ∧
      item.question = some question ∧ item.options = some opts ∧
      item.correct_answer = some ca ∧ item.explanation = some ex ∧
      MCQGenerationAgent.buildOptions ca opts = some options ∧
      parseDifficulty (item.difficulty.getD ("medium")) = some diff ∧
      m = { question := question, options := options, correct_answer := ca,
            explanation := ex, difficulty := diff,
            chunk_id := source_chunk.chunk_id.getD (toString i),
            source_filename := source_chunk.source.getD ("unknown"),
            context_snippet := MCQGenerationAgent.takeSnippet source_chunk.text } := by
  unfold MCQGenerationAgent.buildMCQ at h
  rcases hres : MCQGenerationAgent.resolveChunk chunks item.chunk_index with - | sc <;>
    rw [hres] at h
  · cases h
  rcases hq : item.question with - | q <;> rw [hq] at h
  · cases h
  rcases ho : item.options with - | opts <;> rw [ho] at h
  · cases h
  rcases hca : item.correct_answer with - | ca <;> rw [hca] at h
  · cases h
  rcases hex : item.explanation with - | ex <;> rw [hex] at h
  · cases h
  dsimp only at h
  rcases hopts : MCQGenerationAgent.buildOptions ca opts with - | options <;>
    rw [hopts] at h
  · cases h
  rcases hd : parseDifficulty (item.difficulty.getD ("medium")) with - | diff <;>
    rw [hd] at h
  · cases h
  dsimp only at h
  obtain rfl := Option.some.inj h
  exact ⟨sc, q, opts, ca, ex, options, diff, rfl, rfl, rfl, rfl, rfl, hopts, rfl, rfl⟩

lemma resolveChunk_fallback (chunks : List ChunkData) (ci : Option Int)
    (hne : chunks ≠ [])
    (href : ci = none ∨ ∃ k : Int, ci = some k ∧ (chunks.length : Int) ≤ k) :
    MCQGenerationAgent.resolveChunk chunks ci = chunks.head? := by
  obtain ⟨c0, rest, rfl⟩ : ∃ c0 rest, chunks = c0 :: rest := by
    cases chunks with
    | nil => exact absurd rfl hne
    | cons a l => exact ⟨a, l, rfl⟩
  rcases href with rfl | ⟨k, rfl, hge⟩
  · unfold MCQGenerationAgent.resolveChunk
    have hcond : ((none : Option Int).getD 0) < (((c0 :: rest).length : Nat) : Int) := by
      simp
    rw [if_pos hcond]
    simp [pyIndex]
  · unfold MCQGenerationAgent.resolveChunk
    have hcond : ¬ ((some k).getD 0 < (((c0 :: rest).length : Nat) : Int)) := by
      simpa using not_lt.mpr hge
    rw [if_neg hcond]

/-- C8 (amended): a parsed item whose fragment reference is missing, or
declares an index at least the fragment-list length, builds its MCQ
from the first fragment (a missing reference defaults to index 0); a
negative reference, however, follows Python indexing from the end of
the list instead of falling back to the first fragment. -/
theorem generation_chunk_fallback (chunks : List ChunkData) (i : Nat)
    (item : MCQItem) (m : MCQ) (hne : chunks ≠ [])
    (href : item.chunk_index = none ∨
      ∃ k : Int, item.chunk_index = some k ∧ (chunks.length : Int) ≤ k)
    (hbuild : MCQGenerationAgent.buildMCQ chunks i item = some m) :
    ∃ c0, chunks.head? = some c0 ∧
      m.chunk_id = c0.chunk_id.getD (toString i) ∧
      m.source_filename = c0.source.getD ("unknown") ∧
      m.context_snippet = MCQGenerationAgent.takeSnippet c0.text := by
  obtain ⟨sc, q, opts, ca, ex, options, diff, hres, -, -, -, -, -, -, hm⟩ :=
    buildMCQ_inversion chunks i item m hbuild
  rw [resolveChunk_fallback chunks item.chunk_index hne href] at hres
  exact ⟨sc, hres, by rw [hm], by rw [hm], by rw [hm]⟩

/-- C8 witness: an item declaring fragment index 7 against a 2-element
fragment list takes provenance from the first fragment. -/
theorem generation_chunk_fallback_witness :
    MCQGenerationAgent.buildMCQ [chunkC0, chunkC1] 0 itemOver ≠ none ∧
    (MCQGenerationAgent.buildMCQ [chunkC0, chunkC1] 0 itemOver).map
      (fun m => m.chunk_id) = some ("c0") := by
  rcases hb : MCQGenerationAgent.buildMCQ [chunkC0, chunkC1] 0 itemOver with - | m
  · exact absurd hb (by decide)
  refine ⟨by simp, ?_⟩
  obtain ⟨c0, hc0, hid, -, -⟩ := generation_chunk_fallback [chunkC0, chunkC1] 0 itemOver m
    (by decide) (Or.inr ⟨7, rfl, by decide⟩) hb
  obtain rfl : c0 = chunkC0 := by
    simpa using hc0.symm
  simp [hid]
  rfl

/-- C8 counterexample: the claim says any invalid (out-of-range)
reference falls back to the first fragment, but the negative reference
`-1` selects the **last** fragment (`c1`), not the first (`c0`):
Python's `chunk_idx < len(context_chunks)` test admits negative
indices, which then index from the end. -/
theorem generation_negative_index_counterexample :
    (MCQGenerationAgent.generate_mcqs [chunkC0, chunkC1]
        (GenOutcome.parsed [itemNeg])).map (fun m => m.chunk_id) = ["c1"] ∧
    (MCQGenerationAgent.generate_mcqs [chunkC0, chunkC1]
        (GenOutcome.parsed [itemNeg])).map (fun m => m.chunk_id) ≠
      [chunkC0.chunk_id.getD (toString 0)] := by
  constructor
  · rfl
  · decide

lemma buildOption_is_correct (ca : String) (oi : OptionItem) (o : MCQOption)
    (h : MCQGenerationAgent.buildOption ca oi = some o) :
    o.is_correct = decide (o.label = ca) := by
  unfold MCQGenerationAgent.buildOption at h
  rcases hl : oi.label with - | l <;> rw [hl] at h
  · cases h
  rcases ht : oi.text with - | t <;> rw [ht] at h
  · cases h
  dsimp only at h
  obtain rfl := Option.some.inj h
  rfl

lemma buildOptions_mem (ca : String) (opts : List OptionItem)
    (options : List MCQOption)
    (h : MCQGenerationAgent.buildOptions ca opts = some options) :
    ∀ o ∈ options, o.is_correct = decide (o.label = ca) := by
  induction opts generalizing options with
  | nil =>
      obtain rfl : options = [] := by
        simpa [MCQGenerationAgent.buildOptions] using h.symm
      simp
  | cons hd tl ih =>
      unfold MCQGenerationAgent.buildOptions at h
      rcases hb : MCQGenerationAgent.buildOption ca hd with - | o0 <;> rw [hb] at h
      · cases h
      rcases ht : MCQGenerationAgent.buildOptions ca tl with - | os <;> rw [ht] at h
      · cases h
      dsimp only at h
      obtain rfl := Option.some.inj h
      intro o ho
      rcases List.mem_cons.mp ho with rfl | hmem
      · exact buildOption_is_correct ca hd o hb
      · exact ih os ht o hmem

/-- C9 (amended): for every MCQ built by the Generation Stage, each
option's `is_correct` flag is derived at creation by label-equality
with the declared `correct_answer` — so a uniquely flagged option's
label always equals `correct_answer` by construction.  The Validation
Stage, however, never compares `correct_answer` with the flagged
option's label (see the counterexample), so the consistency is
auto-derived, not checked. -/
theorem correct_answer_derived_at_creation (chunks : List ChunkData) (i : Nat)
    (item : MCQItem) (m : MCQ)
    (hbuild : MCQGenerationAgent.buildMCQ chunks i item = some m) :
    (∀ o ∈ m.options, (o.is_correct = true ↔ o.label = m.correct_answer)) ∧
    (∀ o ∈ m.options, o.is_correct = true → o.label = m.correct_answer) := by
  obtain ⟨sc, q, opts, ca, ex, options, diff, -, -, -, -, -, hopts, -, hm⟩ :=
    buildMCQ_inversion chunks i item m hbuild
  have hmem := buildOptions_mem ca opts options hopts
  have hfields : m.options = options ∧ m.correct_answer = ca := by
    rw [hm]
    exact ⟨rfl, rfl⟩
  obtain ⟨ho, hca⟩ := hfields
  have key : ∀ o ∈ m.options, o.is_correct = decide (o.label = m.correct_answer) := by
    intro o hmo
    rw [hca]
    exact hmem o (ho ▸ hmo)
  constructor
  · intro o hmo
    rw [key o hmo]
    simp
  · intro o hmo hc
    have hk := key o hmo
    rw [hc] at hk
    exact of_decide_eq_true hk.symm

/-- C9 counterexample: an MCQ whose `correct_answer` (B) differs from
the label of its uniquely flagged option (A) nevertheless passes the
Validation Stage with status `VALID` and `is_valid() = true` — the
stage never compares `correct_answer` against the flagged option. -/
theorem mismatch_passes_validation_counterexample :
    mcqMismatch.correct_answer = "B" ∧
    ((mcqMismatch.options.filter fun o => o.is_correct).map fun o => o.label) = ["A"] ∧
    ((MCQValidationAgent.validate_mcqs [mcqMismatch] [critiqueGood] [chunkW]).map
      fun v => (v.status, v.is_valid)) = [(ValidationStatus.valid, true)] := by
  refine ⟨rfl, rfl, ?_⟩
  decide

/-- C9 witness: the generation fixture flags exactly the options whose
label equals the declared correct answer. -/
theorem correct_answer_derived_at_creation_witness :
    ((MCQGenerationAgent.buildMCQ [chunkC0, chunkC1] 0 itemBase).map
      (fun m => m.options.all fun o =>
        (!o.is_correct || decide (o.label = m.correct_answer)))) = some true := by
  rcases hb : MCQGenerationAgent.buildMCQ [chunkC0, chunkC1] 0 itemBase with - | m
  · exact absurd hb (by decide)
  obtain ⟨-, himp⟩ :=
    correct_answer_derived_at_creation [chunkC0, chunkC1] 0 itemBase m hb
  simp only [Option.map_some', Option.some.injEq, List.all_eq_true]
  intro o ho
  by_cases hc : o.is_correct
  · simp [hc, himp o ho hc]
  · simp [hc]

/-- C10: a critique response that parses but omits fields defaults each
missing score to 5.0 and a missing difficulty to medium (not the 7.0
error fallback); in particular a missing grounding score yields 5.0,
which makes the Validation Stage clear `is_context_grounded` while
leaving `has_hallucination` unset. -/
theorem critic_parsed_defaults (mcqs : List MCQ) (chunks : List ChunkData)
    (outcome : Nat → CritiqueOutcome) (i : Nat) (mcq : MCQ) (d : CritiqueData)
    (h : mcqs[i]? = some mcq)
    (hfound : MCQCriticAgent.findSourceChunk chunks mcq ≠ none)
    (hout : outcome i = CritiqueOutcome.parsed d)
    (hg : d.grounding_score = none)
    (hda : d.difficulty_assessment = none) :
    (MCQCriticAgent.critique_mcqs mcqs chunks outcome)[i]? =
      some { mcq_index := i, clarity_score := d.clarity_score.getD 5,
             correctness_score := d.correctness_score.getD 5,
             grounding_score := 5,
             difficulty_assessment := DifficultyLevel.medium,
             issues := d.issues.getD [], suggestions := d.suggestions.getD [] } ∧
    (∀ v, (MCQValidationAgent.validate_mcqs mcqs
            (MCQCriticAgent.critique_mcqs mcqs chunks outcome) chunks)[i]? = some v →
      v.is_context_grounded = false ∧ v.has_hallucination = false) := by
  obtain ⟨ch, hch⟩ := Option.ne_none_iff_exists'.mp hfound
  have hpd : parseDifficulty ((d.difficulty_assessment).getD ("medium")) =
      some DifficultyLevel.medium := by
    rw [hda]
    rfl
  have hc : (MCQCriticAgent.critique_mcqs mcqs chunks outcome)[i]? =
      some { mcq_index := i, clarity_score := d.clarity_score.getD 5,
             correctness_score := d.correctness_score.getD 5,
             grounding_score := 5,
             difficulty_assessment := DifficultyLevel.medium,
             issues := d.issues.getD [], suggestions := d.suggestions.getD [] } := by
    rw [critique_mcqs_getElem mcqs chunks outcome i mcq h]
    simp [MCQCriticAgent.critique_one, hch, hout, MCQCriticAgent.buildCritique, hpd, hg]
  refine ⟨hc, ?_⟩
  intro v hv
  rw [validate_mcqs_getElem mcqs
    (MCQCriticAgent.critique_mcqs mcqs chunks outcome) chunks i mcq h] at hv
  obtain rfl := (Option.some.inj hv).symm
  rw [hc]
  constructor <;>
    simp [MCQValidationAgent.validate_one,
      (by norm_num : (5:ℚ) < 6), (by norm_num : ¬ (5:ℚ) < 5)]

/-- C10 witness: an all-fields-missing parsed critique for `mcqW`
yields grounding score 5 and difficulty medium, and validation then
reports not context-grounded without a hallucination flag. -/
theorem critic_parsed_defaults_witness :
    ((MCQCriticAgent.critique_mcqs [mcqW] [chunkW] critOutEmpty)[0]?.map
      fun c => (c.grounding_score, c.clarity_score, c.difficulty_assessment)) =
      some (5, 5, DifficultyLevel.medium) ∧
    ((MCQValidationAgent.validate_mcqs [mcqW]
        (MCQCriticAgent.critique_mcqs [mcqW] [chunkW] critOutEmpty) [chunkW])[0]?.map
      fun v => (v.is_context_grounded, v.has_hallucination)) = some (false, false) := by
  obtain ⟨hc, hval⟩ := critic_parsed_defaults [mcqW] [chunkW] critOutEmpty 0 mcqW {}
    rfl (by decide) rfl rfl rfl
  constructor
  · rw [hc]
    rfl
  · have hv0 : (MCQValidationAgent.validate_mcqs [mcqW]
        (MCQCriticAgent.critique_mcqs [mcqW] [chunkW] critOutEmpty) [chunkW])[0]? =
        some (MCQValidationAgent.validate_one 0 mcqW
          (MCQCriticAgent.critique_mcqs [mcqW] [chunkW] critOutEmpty)[0]?) :=
      validate_mcqs_getElem _ _ _ 0 mcqW rfl
    obtain ⟨hg, hh⟩ := hval _ hv0
    rw [hv0, Option.map_some', hg, hh]

end DocuQuiz
